import Mathlib

/-
  Shallow embedding of the UDD (user-space device driver) framework of
  kernel/drivers/udd/udd.c.

  External collaborators (the RTDM device registry, the IRQ subsystem, the
  Cobalt signal/thread services, user-memory copies) are modelled by an
  environment record carrying the return value each external call would
  produce, and every modelled operation additionally returns the list of
  externally visible actions it performed, in program order.  Machine
  integers: the shared event counter is a u32, modelled as a Nat reduced
  modulo 2^32 at each increment; C error returns are modelled as negative
  Int values with the usual errno magnitudes.
-/

namespace Udd

/-- Errno magnitude for EINVAL (22); C code returns -EINVAL. -/
def invalErr : Int := 22

/-- Errno magnitude for EIO (5); C code returns -EIO. -/
def ioErr : Int := 5

/-- Errno magnitude for ENXIO (6); C code returns -ENXIO. -/
def nxioErr : Int := 6

/-- Errno magnitude for ENOMEM (12); C code returns -ENOMEM. -/
def nomemErr : Int := 12

/-- Errno magnitude for ENOSYS (38); a driver ioctl returns -ENOSYS to fall
through to the built-in requests. -/
def nosysErr : Int := 38

/-- Errno magnitude for EBUSY (16); used as a sample failure code of the
external IRQ request service. -/
def busyErr : Int := 16

/-- First real-time signal number (kernel SIGRTMIN = 32). -/
def SIGRTMIN : Int := 32

/-- Last real-time signal number (kernel SIGRTMAX = _NSIG = 64). -/
def SIGRTMAX : Int := 64

/-- Interrupt line designator of a UDD device: UDD_IRQ_NONE, UDD_IRQ_CUSTOM,
or a concrete line number (rtdm/udd.h). -/
inductive IrqLine where
  | irqNone
  | custom
  | line (n : Nat)
deriving DecidableEq, Repr

/-- Memory region type: UDD_MEM_NONE / UDD_MEM_PHYS / UDD_MEM_LOGICAL /
UDD_MEM_VIRTUAL (rtdm/udd.h). -/
inductive MemType where
  | memNone
  | phys
  | logical
  | virt
deriving DecidableEq, Repr

/-- One entry of the mem_regions[] array of a UDD device: struct
udd_memregion.  The name pointer is modelled as an Option (NULL = none). -/
structure MemRegion where
  name : Option String
  addr : Nat
  len : Nat
  type : MemType
deriving DecidableEq, Repr

/-- Region used when indexing out of the modelled array (type NONE slot). -/
def emptyRegion : MemRegion :=
  { name := Option.none, addr := 0, len := 0, type := MemType.memNone }

/-- Request codes UDD_RTIOC_IRQSIG / UDD_RTIOC_IRQEN / UDD_RTIOC_IRQDIS from
rtdm/udd.h (not in tree); only their distinctness matters to the code. -/
def UDD_RTIOC_IRQSIG : Nat := 2

/-- Request code of the enable-line ioctl. -/
def UDD_RTIOC_IRQEN : Nat := 0

/-- Request code of the disable-line ioctl. -/
def UDD_RTIOC_IRQDIS : Nat := 1

/-- The author-supplied device description: the fields of struct udd_device
that the modelled operations consult.  Driver hooks are modelled by their
presence and, when present, by the return value they would produce for the
call at hand (they are external driver code). -/
structure UddDevice where
  mem_regions : List MemRegion
  irq : IrqLine
  ops_interrupt : Bool
  ops_ioctl : Option Int
  ops_mmap : Option Int

/-- The mutable shared state of struct udd_reserved that the claims are
about: the u32 event counter and the signal-notification target
(signfy.pid, signfy.sig); pid <= 0 means no target. -/
structure UddReserved where
  event : Nat
  signfy_pid : Int
  signfy_sig : Int
deriving DecidableEq, Repr

/-- Externally visible actions a modelled operation performs, in program
order.  Acquisition actions (registerMapper, bindIrq, registerControl) are
recorded when the corresponding external call succeeds; release actions
(destroyMapper, freeIrq, ...) are recorded whenever the code calls them. -/
inductive Action where
  | registerMapper
  | destroyMapper
  | freeMapperName
  | eventInit
  | bindIrq (n : Nat)
  | freeIrq
  | registerControl
  | signalPulse
  | sigqueue (pid : Int) (sig : Int) (payload : Nat)
  | postIrqEnable (l : IrqLine)
  | postIrqDisable (l : IrqLine)
  | eventDestroy
  | unregisterMapper (poll_delay : Nat)
  | unregisterControl (poll_delay : Nat)
  | driverMmap
  | mmapIomem (addr : Nat)
  | mmapKmem (addr : Nat)
  | mmapVmem (addr : Nat)
deriving DecidableEq, Repr

/-- Returns true exactly on the bindIrq action, any line. -/
def isBindIrq : Action → Bool
  | Action.bindIrq _ => true
  | _ => false

/-- Results of the external collaborators consulted by the modelled
operations: 0 means the external call succeeds, a negative value is the
error it returns.  thread_find_local models cobalt_thread_find_local(pid)
being non-NULL. -/
structure Env where
  realtime_core_enabled : Bool
  kasformat_ok : Bool
  mapper_register_ret : Int
  irq_request_ret : Int
  dev_register_ret : Int
  copy_from_user_ret : Int
  copy_to_user_ret : Int
  sigqueue_ret : Int
  thread_find_local : Int → Bool
  mmap_iomem_ret : Int
  mmap_kmem_ret : Int
  mmap_vmem_ret : Int
  unregister_control_ret : Int

/-- check_memregion from udd.c: a NONE slot passes (sparse arrays allowed);
otherwise the name must be non-NULL and addr and len nonzero, and the valid
region is counted into nr_maps.  Returns (ret, updated nr_maps). -/
def check_memregion (nr_maps : Nat) (rn : MemRegion) : Int × Nat :=
  if rn.type = MemType.memNone then (0, nr_maps)
  else if rn.name = Option.none then (-invalErr, nr_maps)
  else if rn.addr = 0 then (-invalErr, nr_maps)
  else if rn.len = 0 then (-invalErr, nr_maps)
  else (0, nr_maps + 1)

/-- The region-validation loop of udd_register_device: runs check_memregion
over every slot, aborting at the first failure; threads nr_maps through. -/
def validate_regions : List MemRegion → Nat → Int × Nat
  | [], nr_maps => (0, nr_maps)
  | rn :: rest, nr_maps =>
      let r := check_memregion nr_maps rn
      if r.1 ≠ 0 then r else validate_regions rest r.2

/-- A region slot violating the invariant of check_memregion: non-NONE with
a missing name, zero address, or zero length. -/
def offending (rn : MemRegion) : Prop :=
  rn.type ≠ MemType.memNone ∧
    (rn.name = Option.none ∨ rn.addr = 0 ∨ rn.len = 0)

instance offendingDec : DecidablePred offending := by
  intro rn
  unfold offending
  infer_instance

/-- register_mapper from udd.c: allocates the derived mapper name (may fail
with -ENOMEM), then registers the mapper device with the RTDM registry. -/
def register_mapper (env : Env) : Int × List Action :=
  if env.kasformat_ok = false then (-nomemErr, [])
  else if env.mapper_register_ret ≠ 0 then (env.mapper_register_ret, [])
  else (0, [Action.registerMapper])

/-- udd_register_device from udd.c: core-enabled check, interrupt-handler
check, region validation, conditional mapper registration, event-bridge
initialization, conditional IRQ request, control-device registration, with
the rollback labels fail_dev_register / fail_irq_request modelled exactly as
written: the rollback calls rtdm_irq_free and rtdm_dev_unregister(mapper)
unconditionally. -/
def udd_register_device (env : Env) (udd : UddDevice) : Int × List Action :=
  if env.realtime_core_enabled = false then (-nxioErr, [])
  else if udd.irq ≠ IrqLine.irqNone ∧ udd.ops_interrupt = false then
    (-invalErr, [])
  else
    let v := validate_regions udd.mem_regions 0
    if v.1 ≠ 0 then (v.1, [])
    else
      let m := if v.2 > 0 then register_mapper env else (0, [])
      if m.1 ≠ 0 then (m.1, m.2)
      else
        let acts := m.2 ++ [Action.eventInit]
        match udd.irq with
        | IrqLine.line n =>
            if env.irq_request_ret ≠ 0 then
              (env.irq_request_ret,
               acts ++ [Action.destroyMapper, Action.freeMapperName])
            else
              let acts := acts ++ [Action.bindIrq n]
              if env.dev_register_ret ≠ 0 then
                (env.dev_register_ret,
                 acts ++ [Action.freeIrq, Action.destroyMapper,
                          Action.freeMapperName])
              else (0, acts ++ [Action.registerControl])
        | _ =>
            if env.dev_register_ret ≠ 0 then
              (env.dev_register_ret,
               acts ++ [Action.freeIrq, Action.destroyMapper,
                        Action.freeMapperName])
            else (0, acts ++ [Action.registerControl])

/-- udd_notify_event from udd.c: increment the u32 counter, signal the pulse
event (a broadcast wake of all blocked readers), and, when a notification
target is stored (pid > 0), queue an asynchronous signal whose payload is
the counter value read back after the increment.  The function is void in C
and ignores the result of cobalt_sigqueue, so the model never consults
env.sigqueue_ret. -/
def udd_notify_event (env : Env) (ur : UddReserved) :
    UddReserved × List Action :=
  let ev := (ur.event + 1) % 2 ^ 32
  let ur' := { ur with event := ev }
  if 0 < ur'.signfy_pid then
    (ur', [Action.signalPulse,
           Action.sigqueue ur'.signfy_pid ur'.signfy_sig ev])
  else (ur', [Action.signalPulse])

/-- The udd_signotify payload of the UDD_RTIOC_IRQSIG request. -/
structure Signotify where
  pid : Int
  sig : Int
deriving DecidableEq, Repr

/-- The switch statement of udd_ioctl_rt.  ret0 is the value the local ret
variable holds when the switch is entered (0 when no driver ioctl exists,
-ENOSYS when a driver ioctl fell through); cases that break without
assigning ret return ret0, exactly as the C does. -/
def udd_ioctl_builtin (env : Env) (udd : UddDevice) (ur : UddReserved)
    (request : Nat) (arg : Signotify) (ret0 : Int) :
    Int × UddReserved × List Action :=
  if request = UDD_RTIOC_IRQSIG then
    if env.copy_from_user_ret ≠ 0 then (env.copy_from_user_ret, ur, [])
    else if arg.pid ≤ 0 then (0, { ur with signfy_pid := -1 }, [])
    else if arg.sig < SIGRTMIN ∨ SIGRTMAX < arg.sig then (-invalErr, ur, [])
    else if env.thread_find_local arg.pid = false then (-invalErr, ur, [])
    else (0, { ur with signfy_pid := arg.pid, signfy_sig := arg.sig }, [])
  else if request = UDD_RTIOC_IRQEN then
    if udd.irq = IrqLine.irqNone then (-ioErr, ur, [])
    else (ret0, ur, [Action.postIrqEnable udd.irq])
  else if request = UDD_RTIOC_IRQDIS then
    if udd.irq = IrqLine.irqNone then (-ioErr, ur, [])
    else (ret0, ur, [Action.postIrqDisable udd.irq])
  else (ret0, ur, [])

/-- udd_ioctl_rt from udd.c: the driver ioctl, when present, runs first and
its result is returned unless it is -ENOSYS, in which case control falls
through to the built-in switch. -/
def udd_ioctl_rt (env : Env) (udd : UddDevice) (ur : UddReserved)
    (request : Nat) (arg : Signotify) : Int × UddReserved × List Action :=
  match udd.ops_ioctl with
  | Option.some r =>
      if r ≠ -nosysErr then (r, ur, [])
      else udd_ioctl_builtin env udd ur request arg r
  | Option.none => udd_ioctl_builtin env udd ur request arg 0

/-- Outcome of a modelled read: blocked means the thread is still suspended
in rtdm_event_wait with no further wake modelled; done carries the return
value and the new per-handle event_count. -/
inductive ReadOut where
  | blocked
  | fail (e : Int)
  | done (ret : Int) (newCount : Nat)
deriving DecidableEq, Repr

/-- The wait loop of udd_read_rt.  Each element of waits is one return from
rtdm_event_wait paired with the value the shared counter holds when the
waiter resumes (the counter only changes through concurrent
udd_notify_event calls, which the environment schedules). -/
def wait_loop (ctxCount : Nat) : Nat → List (Int × Nat) →
    Option (Except Int Nat)
  | ev, [] =>
      if ev ≠ ctxCount then Option.some (Except.ok ev) else Option.none
  | ev, (ret, ev') :: rest =>
      if ev ≠ ctxCount then Option.some (Except.ok ev)
      else if ret ≠ 0 then Option.some (Except.error ret)
      else wait_loop ctxCount ev' rest

/-- udd_read_rt from udd.c: a read of exactly sizeof(u32) = 4 bytes; -EIO
when the device declares UDD_IRQ_NONE; otherwise loop until the shared
counter differs from the per-handle count, propagate a nonzero
rtdm_event_wait return, and on wake copy the counter out, update the
per-handle count, and return 4 (or the copy error). -/
def udd_read_rt (env : Env) (udd : UddDevice) (ev ctxCount : Nat)
    (len : Nat) (waits : List (Int × Nat)) : ReadOut :=
  if len ≠ 4 then ReadOut.fail (-invalErr)
  else if udd.irq = IrqLine.irqNone then ReadOut.fail (-ioErr)
  else
    match wait_loop ctxCount ev waits with
    | Option.none => ReadOut.blocked
    | Option.some (Except.error r) => ReadOut.fail r
    | Option.some (Except.ok ev') =>
        ReadOut.done
          (if env.copy_to_user_ret ≠ 0 then env.copy_to_user_ret else 4) ev'

/-- mapper_mmap from udd.c: a driver-supplied mmap takes precedence over
everything; otherwise the request length is checked against the declared
region length and the mapping dispatches on the region type. -/
def mapper_mmap (env : Env) (udd : UddDevice) (minor : Nat) (vlen : Nat) :
    Int × List Action :=
  match udd.ops_mmap with
  | Option.some r => (r, [Action.driverMmap])
  | Option.none =>
      let rn := udd.mem_regions.getD minor emptyRegion
      if rn.len < vlen then (-invalErr, [])
      else
        match rn.type with
        | MemType.phys => (env.mmap_iomem_ret, [Action.mmapIomem rn.addr])
        | MemType.logical => (env.mmap_kmem_ret, [Action.mmapKmem rn.addr])
        | MemType.virt => (env.mmap_vmem_ret, [Action.mmapVmem rn.addr])
        | MemType.memNone => (-invalErr, [])

/-- udd_unregister_device from udd.c: -ENXIO when the real-time core is
disabled, before any teardown step; otherwise destroy the pulse event, free
the IRQ when the line is concrete, unregister the mapper, free the mapper
name when one was allocated (mapper_name_live), and return the result of
unregistering the control device. -/
def udd_unregister_device (env : Env) (udd : UddDevice)
    (mapper_name_live : Bool) (poll_delay : Nat) : Int × List Action :=
  if env.realtime_core_enabled = false then (-nxioErr, [])
  else
    let a := [Action.eventDestroy] ++
      (match udd.irq with
       | IrqLine.line _ => [Action.freeIrq]
       | _ => []) ++
      [Action.unregisterMapper poll_delay] ++
      (if mapper_name_live then [Action.freeMapperName] else []) ++
      [Action.unregisterControl poll_delay]
    (env.unregister_control_ret, a)

/-- Environment in which every external collaborator succeeds. -/
def envBase : Env :=
  { realtime_core_enabled := true
    kasformat_ok := true
    mapper_register_ret := 0
    irq_request_ret := 0
    dev_register_ret := 0
    copy_from_user_ret := 0
    copy_to_user_ret := 0
    sigqueue_ret := 0
    thread_find_local := fun _ => true
    mmap_iomem_ret := 0
    mmap_kmem_ret := 0
    mmap_vmem_ret := 0
    unregister_control_ret := 0 }

/-- Environment with the real-time core disabled. -/
def envDisabled : Env := { envBase with realtime_core_enabled := false }

/-- Environment in which registering the control device fails (-ENOMEM). -/
def envCtlFail : Env := { envBase with dev_register_ret := -nomemErr }

/-- Environment in which the IRQ request fails (-EBUSY). -/
def envIrqFail : Env := { envBase with irq_request_ret := -busyErr }

/-- Minimal device: no IRQ, no regions, no driver hooks. -/
def devNoIrq : UddDevice :=
  { mem_regions := []
    irq := IrqLine.irqNone
    ops_interrupt := false
    ops_ioctl := Option.none
    ops_mmap := Option.none }

/-- Device declaring concrete IRQ line 5 with an interrupt handler. -/
def devIrq5 : UddDevice :=
  { devNoIrq with irq := IrqLine.line 5, ops_interrupt := true }

/-- Device declaring UDD_IRQ_CUSTOM with an interrupt handler. -/
def devCustom : UddDevice :=
  { devNoIrq with irq := IrqLine.custom, ops_interrupt := true }

/-- Device with one offending region slot (non-NONE, name missing). -/
def devBadRegion : UddDevice :=
  { devNoIrq with
    mem_regions :=
      [{ name := Option.none, addr := 1, len := 1, type := MemType.phys }] }

/-- Device with one valid PHYSICAL region at address 4096, 16 bytes long. -/
def devPhysRegion : UddDevice :=
  { devNoIrq with
    mem_regions :=
      [{ name := Option.some "mem", addr := 4096, len := 16,
         type := MemType.phys }] }

/-- Shared-state value with counter 0 and no notification target. -/
def ur0 : UddReserved := { event := 0, signfy_pid := -1, signfy_sig := 0 }

end Udd

namespace Udd

/-- An offending slot makes check_memregion return -EINVAL and leave
nr_maps untouched. -/
lemma check_memregion_of_offending (nr : Nat) (rn : MemRegion)
    (h : offending rn) : check_memregion nr rn = (-invalErr, nr) := by
  obtain ⟨hty, hcase⟩ := h
  unfold check_memregion
  rw [if_neg hty]
  by_cases hn : rn.name = Option.none
  · rw [if_pos hn]
  · rw [if_neg hn]
    by_cases ha : rn.addr = 0
    · rw [if_pos ha]
    · rw [if_neg ha]
      have hl : rn.len = 0 := by tauto
      rw [if_pos hl]

/-- A non-offending slot passes check_memregion. -/
lemma check_memregion_fst_of_not_offending (nr : Nat) (rn : MemRegion)
    (h : ¬ offending rn) : (check_memregion nr rn).1 = 0 := by
  unfold offending at h
  push_neg at h
  unfold check_memregion
  by_cases hty : rn.type = MemType.memNone
  · rw [if_pos hty]
  · obtain ⟨hn, ha, hl⟩ := h hty
    rw [if_neg hty, if_neg hn, if_neg ha, if_neg hl]

/-- The validation loop reports -EINVAL whenever some slot offends. -/
lemma validate_regions_fst_of_offending (l : List MemRegion) :
    ∀ nr : Nat, (∃ rn ∈ l, offending rn) →
      (validate_regions l nr).1 = -invalErr := by
  induction l with
  | nil =>
      intro nr h
      simp at h
  | cons rn rest ih =>
      intro nr h
      by_cases hrn : offending rn
      · unfold validate_regions
        rw [check_memregion_of_offending nr rn hrn]
        rw [if_pos (show (-invalErr, nr).1 ≠ 0 by norm_num [invalErr])]
      · have hrest : ∃ rn' ∈ rest, offending rn' := by
          rcases h with ⟨r, hr, ho⟩
          rcases List.mem_cons.mp hr with he | hm
          · exact absurd (he ▸ ho) hrn
          · exact ⟨r, hm, ho⟩
        unfold validate_regions
        rw [if_neg (by simp [check_memregion_fst_of_not_offending nr rn hrn])]
        exact ih _ hrest

/-- C2: if the region array contains a non-NONE slot with a missing name,
zero address, or zero length, and the earlier core-enabled and
interrupt-handler checks pass, udd_register_device returns -EINVAL from the
validation loop (which stops at the first offending slot) and performs no
acquisition at all: no mapper registration, no event-bridge initialization,
no IRQ binding, no control-device registration. -/
theorem c2_invalid_region_aborts (env : Env) (udd : UddDevice)
    (hen : env.realtime_core_enabled = true)
    (hh : udd.irq = IrqLine.irqNone ∨ udd.ops_interrupt = true)
    (hbad : ∃ rn ∈ udd.mem_regions, offending rn) :
    udd_register_device env udd = (-invalErr, []) := by
  have hv := validate_regions_fst_of_offending udd.mem_regions 0 hbad
  unfold udd_register_device
  rw [if_neg (by simp [hen])]
  rw [if_neg (by rcases hh with h1 | h1 <;> simp [h1])]
  rw [if_pos (by rw [hv]; decide)]
  rw [hv]

/-- C2 witness: a device whose single region slot is PHYSICAL with a NULL
name is rejected with -EINVAL and no actions. -/
theorem c2_invalid_region_aborts_witness :
    udd_register_device envBase devBadRegion = (-invalErr, []) :=
  c2_invalid_region_aborts envBase devBadRegion rfl (Or.inl rfl) (by decide)

/-- C3: udd_notify_event increments the shared u32 counter by exactly one
(modulo 2^32), signals the shared pulse event (the broadcast wake of
blocked readers), queues an asynchronous signal carrying the post-increment
counter value exactly when the stored notification pid is positive, leaves
the stored target unchanged, and its outcome is independent of the
environment — in particular of the result of the signal delivery, which is
never propagated. -/
theorem c3_notify_event_spec (env env' : Env) (ur : UddReserved) :
    (udd_notify_event env ur).1.event = (ur.event + 1) % 2 ^ 32 ∧
    (udd_notify_event env ur).1.signfy_pid = ur.signfy_pid ∧
    (udd_notify_event env ur).1.signfy_sig = ur.signfy_sig ∧
    (udd_notify_event env ur).2 =
      (if 0 < ur.signfy_pid then
        [Action.signalPulse,
         Action.sigqueue ur.signfy_pid ur.signfy_sig
           ((ur.event + 1) % 2 ^ 32)]
       else [Action.signalPulse]) ∧
    udd_notify_event env ur = udd_notify_event env' ur := by
  unfold udd_notify_event
  by_cases h : 0 < ur.signfy_pid <;> simp [h]

/-- C7: udd_register_device returns -ENXIO when the real-time core is
disabled and otherwise -EINVAL when an interrupt line is declared (not
NONE) without an interrupt handler; both rejections happen for every
region array and before any action is performed. -/
theorem c7_early_rejects (env : Env) (udd : UddDevice) :
    (env.realtime_core_enabled = false →
      udd_register_device env udd = (-nxioErr, [])) ∧
    (env.realtime_core_enabled = true → udd.irq ≠ IrqLine.irqNone →
      udd.ops_interrupt = false →
      udd_register_device env udd = (-invalErr, [])) := by
  constructor
  · intro h
    unfold udd_register_device
    rw [if_pos h]
  · intro hen hirq hops
    unfold udd_register_device
    rw [if_neg (by simp [hen])]
    rw [if_pos ⟨hirq, hops⟩]

/-- C7 witness: the disabled-core rejection and the missing-handler
rejection at concrete inputs, each with an empty action list. -/
theorem c7_early_rejects_witness :
    udd_register_device envDisabled devBadRegion = (-nxioErr, []) ∧
    udd_register_device envBase
      { devNoIrq with irq := IrqLine.line 7 } = (-invalErr, []) :=
  ⟨(c7_early_rejects envDisabled devBadRegion).1 rfl,
   (c7_early_rejects envBase { devNoIrq with irq := IrqLine.line 7 }).2
     rfl (by decide) rfl⟩

/-- C9: when the real-time core is disabled, udd_unregister_device returns
-ENXIO immediately with no teardown action at all — no event destroy, no
IRQ free, no mapper or control unregistration — whatever the device. -/
theorem c9_unregister_core_disabled (env : Env) (udd : UddDevice)
    (mapper_name_live : Bool) (poll_delay : Nat)
    (h : env.realtime_core_enabled = false) :
    udd_unregister_device env udd mapper_name_live poll_delay =
      (-nxioErr, []) := by
  unfold udd_unregister_device
  rw [if_pos h]

/-- C9 witness: unregistering a registered-looking device under a disabled
core returns -ENXIO with no actions. -/
theorem c9_unregister_core_disabled_witness :
    udd_unregister_device envDisabled devIrq5 true 10 = (-nxioErr, []) :=
  c9_unregister_core_disabled envDisabled devIrq5 true 10 rfl

/-- C10: for any request other than the three built-ins, a device without a
driver ioctl handler gets return value 0 from udd_ioctl_rt, with the shared
state unchanged and no action performed. -/
theorem c10_unknown_ioctl_success (env : Env) (udd : UddDevice)
    (ur : UddReserved) (arg : Signotify) (request : Nat)
    (hdrv : udd.ops_ioctl = Option.none)
    (h1 : request ≠ UDD_RTIOC_IRQSIG) (h2 : request ≠ UDD_RTIOC_IRQEN)
    (h3 : request ≠ UDD_RTIOC_IRQDIS) :
    udd_ioctl_rt env udd ur request arg = (0, ur, []) := by
  unfold udd_ioctl_rt
  rw [hdrv]
  unfold udd_ioctl_builtin
  rw [if_neg h1, if_neg h2, if_neg h3]

/-- C10 witness: request code 99 on a device with no driver ioctl returns
0 and changes nothing. -/
theorem c10_unknown_ioctl_success_witness :
    udd_ioctl_rt envBase devNoIrq ur0 99 { pid := 0, sig := 0 } =
      (0, ur0, []) :=
  c10_unknown_ioctl_success envBase devNoIrq ur0 { pid := 0, sig := 0 } 99
    rfl (by decide) (by decide) (by decide)


/-- C1: evaluation of udd_register_device at two failing registrations,
exhibiting the unguarded rollback written at labels fail_dev_register /
fail_irq_request.  First input: a device with UDD_IRQ_NONE and no region,
control-device registration failing — the code performs freeIrq although no
bindIrq ever happened and destroyMapper although no registerMapper ever
happened.  Second input: a device with a concrete line and no region, the
IRQ request failing — the code performs destroyMapper although no mapper
was created. -/
theorem c1_rollback_unguarded_eval :
    udd_register_device envCtlFail devNoIrq =
      (-nomemErr, [Action.eventInit, Action.freeIrq, Action.destroyMapper,
                   Action.freeMapperName]) ∧
    Action.freeIrq ∈ (udd_register_device envCtlFail devNoIrq).2 ∧
    (udd_register_device envCtlFail devNoIrq).2.all
      (fun a => !(isBindIrq a)) = true ∧
    Action.destroyMapper ∈ (udd_register_device envCtlFail devNoIrq).2 ∧
    Action.registerMapper ∉ (udd_register_device envCtlFail devNoIrq).2 ∧
    udd_register_device envIrqFail devIrq5 =
      (-busyErr, [Action.eventInit, Action.destroyMapper,
                  Action.freeMapperName]) ∧
    Action.destroyMapper ∈ (udd_register_device envIrqFail devIrq5).2 ∧
    Action.registerMapper ∉ (udd_register_device envIrqFail devIrq5).2 := by
  decide

/-- C4 counterexample: the claim requires read to fail with -EIO whenever no
concrete interrupt line is declared, but a device declaring UDD_IRQ_CUSTOM
(which is not a concrete line) passes the check in udd_read_rt, which only
rejects UDD_IRQ_NONE: a 4-byte read with a fresh event returns 4. -/
theorem c4_read_custom_line_counterexample :
    udd_read_rt envBase devCustom 1 0 4 [] = ReadOut.done 4 1 ∧
    udd_read_rt envBase devCustom 1 0 4 [] ≠ ReadOut.fail (-ioErr) := by
  decide

/-- C4 (amended): udd_read_rt fails with -EINVAL (BadLength) unless len is
the serialized counter width 4; fails with -EIO (NoInterruptLine) exactly
when the declared line is UDD_IRQ_NONE — a CUSTOM line is accepted; blocks
while the shared counter equals the per-handle count and no wake arrives;
propagates a nonzero rtdm_event_wait return (WaitInterrupted) as the read
failure; and when the counter already differs it copies the current value
out, updates the per-handle count to that value, and returns 4. -/
theorem c4_read_spec_amended (env : Env) (udd : UddDevice) (ev ctx : Nat)
    (waits : List (Int × Nat)) (len : Nat) :
    (len ≠ 4 → udd_read_rt env udd ev ctx len waits =
      ReadOut.fail (-invalErr)) ∧
    (udd.irq = IrqLine.irqNone →
      udd_read_rt env udd ev ctx 4 waits = ReadOut.fail (-ioErr)) ∧
    (udd.irq ≠ IrqLine.irqNone → ev = ctx →
      udd_read_rt env udd ev ctx 4 [] = ReadOut.blocked) ∧
    (∀ r ev', udd.irq ≠ IrqLine.irqNone → ev = ctx → r ≠ 0 →
      udd_read_rt env udd ev ctx 4 ((r, ev') :: waits) = ReadOut.fail r) ∧
    (udd.irq ≠ IrqLine.irqNone → ev ≠ ctx → env.copy_to_user_ret = 0 →
      udd_read_rt env udd ev ctx 4 waits = ReadOut.done 4 ev) := by
  refine ⟨?_, ?_, ?_, ?_, ?_⟩
  · intro hlen
    unfold udd_read_rt
    rw [if_pos hlen]
  · intro hirq
    unfold udd_read_rt
    rw [if_neg (by decide), if_pos hirq]
  · intro hirq hev
    unfold udd_read_rt
    rw [if_neg (by decide), if_neg hirq]
    unfold wait_loop
    rw [if_neg (by simp [hev])]
  · intro r ev' hirq hev hr
    unfold udd_read_rt
    rw [if_neg (by decide), if_neg hirq]
    unfold wait_loop
    rw [if_neg (by simp [hev]), if_pos hr]
  · intro hirq hev hcp
    unfold udd_read_rt
    rw [if_neg (by decide), if_neg hirq]
    cases waits with
    | nil =>
        unfold wait_loop
        rw [if_pos hev]
        simp [hcp]
    | cons w rest =>
        unfold wait_loop
        rw [if_pos hev]
        simp [hcp]

/-- C4 witness: on a CUSTOM-line device with counter 1 and per-handle count
0, a 4-byte read returns 4 and the new per-handle count 1 without waiting. -/
theorem c4_read_spec_amended_witness :
    udd_read_rt envBase devCustom 1 0 4 [(0, 2)] = ReadOut.done 4 1 :=
  (c4_read_spec_amended envBase devCustom 1 0 [(0, 2)] 4).2.2.2.2
    (by decide) (by decide) rfl

/-- C5 counterexample: the claim requires every built-in ioctl, including
set-notification-target, to fail with -EIO on a device with no interrupt
line, but UDD_RTIOC_IRQSIG in udd_ioctl_rt performs no interrupt-line check
at all: on a UDD_IRQ_NONE device it succeeds (here disabling the target). -/
theorem c5_ioctl_sig_no_line_check_counterexample :
    udd_ioctl_rt envBase devNoIrq ur0 UDD_RTIOC_IRQSIG
      { pid := -1, sig := 0 } = (0, ur0, []) ∧
    (udd_ioctl_rt envBase devNoIrq ur0 UDD_RTIOC_IRQSIG
      { pid := -1, sig := 0 }).1 ≠ -ioErr := by
  decide

/-- C5 (amended): the driver-specific ioctl, when present, runs first and
any result other than -ENOSYS is returned as is; when it is absent, the
enable-line and disable-line built-ins fail with -EIO (NoInterruptLine)
exactly when the declared line is UDD_IRQ_NONE (a CUSTOM line is accepted
and the deferred line switch is posted with the device's line value), while
set-notification-target performs no interrupt-line check and succeeds even
on a line-less device. -/
theorem c5_ioctl_spec_amended (env : Env) (udd : UddDevice)
    (ur : UddReserved) (arg : Signotify) (request : Nat) :
    (∀ r, udd.ops_ioctl = Option.some r → r ≠ -nosysErr →
      udd_ioctl_rt env udd ur request arg = (r, ur, [])) ∧
    (udd.ops_ioctl = Option.none →
      (udd.irq = IrqLine.irqNone →
        udd_ioctl_rt env udd ur UDD_RTIOC_IRQEN arg = (-ioErr, ur, []) ∧
        udd_ioctl_rt env udd ur UDD_RTIOC_IRQDIS arg = (-ioErr, ur, [])) ∧
      (udd.irq ≠ IrqLine.irqNone →
        udd_ioctl_rt env udd ur UDD_RTIOC_IRQEN arg =
          (0, ur, [Action.postIrqEnable udd.irq]) ∧
        udd_ioctl_rt env udd ur UDD_RTIOC_IRQDIS arg =
          (0, ur, [Action.postIrqDisable udd.irq])) ∧
      (env.copy_from_user_ret = 0 → arg.pid ≤ 0 →
        udd_ioctl_rt env udd ur UDD_RTIOC_IRQSIG arg =
          (0, { ur with signfy_pid := -1 }, []))) := by
  constructor
  · intro r hr hne
    simp only [udd_ioctl_rt, hr]
    rw [if_pos hne]
  · intro hdrv
    refine ⟨?_, ?_, ?_⟩
    · intro hirq
      constructor <;>
        simp [udd_ioctl_rt, hdrv, udd_ioctl_builtin, hirq,
              UDD_RTIOC_IRQSIG, UDD_RTIOC_IRQEN, UDD_RTIOC_IRQDIS]
    · intro hirq
      constructor <;>
        simp [udd_ioctl_rt, hdrv, udd_ioctl_builtin, hirq,
              UDD_RTIOC_IRQSIG, UDD_RTIOC_IRQEN, UDD_RTIOC_IRQDIS]
    · intro hcp hpid
      simp [udd_ioctl_rt, hdrv, udd_ioctl_builtin, hcp, hpid,
            UDD_RTIOC_IRQSIG, UDD_RTIOC_IRQEN, UDD_RTIOC_IRQDIS]

/-- C5 witness: enable-line on a device with concrete line 5 posts the
deferred enable for that line, and on a line-less device fails with -EIO. -/
theorem c5_ioctl_spec_amended_witness :
    udd_ioctl_rt envBase devIrq5 ur0 UDD_RTIOC_IRQEN { pid := 0, sig := 0 } =
      (0, ur0, [Action.postIrqEnable devIrq5.irq]) ∧
    udd_ioctl_rt envBase devNoIrq ur0 UDD_RTIOC_IRQEN { pid := 0, sig := 0 } =
      (-ioErr, ur0, []) :=
  ⟨(((c5_ioctl_spec_amended envBase devIrq5 ur0 { pid := 0, sig := 0 }
      UDD_RTIOC_IRQEN).2 rfl).2.1 (by decide)).1,
   (((c5_ioctl_spec_amended envBase devNoIrq ur0 { pid := 0, sig := 0 }
      UDD_RTIOC_IRQEN).2 rfl).1 rfl).1⟩

/-- C6: the set-notification-target ioctl (UDD_RTIOC_IRQSIG) on a device
without a driver ioctl and with a successful user copy: pid <= 0 always
succeeds and stores pid -1 (target none), regardless of the signal value;
pid > 0 fails with -EINVAL — leaving the stored target unchanged — when the
signal is outside [SIGRTMIN, SIGRTMAX] or no local thread with that pid
exists; otherwise the (pid, signal) pair becomes the new target. -/
theorem c6_set_notification_target (env : Env) (udd : UddDevice)
    (ur : UddReserved) (arg : Signotify)
    (hdrv : udd.ops_ioctl = Option.none)
    (hcp : env.copy_from_user_ret = 0) :
    (arg.pid ≤ 0 →
      udd_ioctl_rt env udd ur UDD_RTIOC_IRQSIG arg =
        (0, { ur with signfy_pid := -1 }, [])) ∧
    (0 < arg.pid →
      (arg.sig < SIGRTMIN ∨ SIGRTMAX < arg.sig ∨
        env.thread_find_local arg.pid = false) →
      udd_ioctl_rt env udd ur UDD_RTIOC_IRQSIG arg = (-invalErr, ur, [])) ∧
    (0 < arg.pid → SIGRTMIN ≤ arg.sig → arg.sig ≤ SIGRTMAX →
      env.thread_find_local arg.pid = true →
      udd_ioctl_rt env udd ur UDD_RTIOC_IRQSIG arg =
        (0, { ur with signfy_pid := arg.pid, signfy_sig := arg.sig }, [])) := by
  refine ⟨?_, ?_, ?_⟩
  · intro hpid
    unfold udd_ioctl_rt
    rw [hdrv]
    unfold udd_ioctl_builtin
    rw [if_pos rfl, if_neg (by simp [hcp]), if_pos hpid]
  · intro hpid hbad
    unfold udd_ioctl_rt
    rw [hdrv]
    unfold udd_ioctl_builtin
    rw [if_pos rfl, if_neg (by simp [hcp]), if_neg (by omega)]
    rcases hbad with hs | hs | hs
    · rw [if_pos (Or.inl hs)]
    · rw [if_pos (Or.inr hs)]
    · by_cases hrng : arg.sig < SIGRTMIN ∨ SIGRTMAX < arg.sig
      · rw [if_pos hrng]
      · rw [if_neg hrng, if_pos hs]
  · intro hpid hlo hhi hfind
    unfold udd_ioctl_rt
    rw [hdrv]
    unfold udd_ioctl_builtin
    rw [if_pos rfl, if_neg (by simp [hcp]), if_neg (by omega),
        if_neg (by omega), if_neg (by simp [hfind])]

/-- C6 witness: storing target (pid 5, signal 33) succeeds on a line-less
device, and a pid 5 with non-real-time signal 3 is rejected unchanged. -/
theorem c6_set_notification_target_witness :
    udd_ioctl_rt envBase devNoIrq ur0 UDD_RTIOC_IRQSIG
      { pid := 5, sig := 33 } =
      (0, { ur0 with signfy_pid := 5, signfy_sig := 33 }, []) ∧
    udd_ioctl_rt envBase devNoIrq ur0 UDD_RTIOC_IRQSIG
      { pid := 5, sig := 3 } = (-invalErr, ur0, []) :=
  ⟨(c6_set_notification_target envBase devNoIrq ur0
      { pid := 5, sig := 33 } rfl rfl).2.2 (by decide) (by decide)
      (by decide) rfl,
   (c6_set_notification_target envBase devNoIrq ur0
      { pid := 5, sig := 3 } rfl rfl).2.1 (by decide)
      (Or.inl (by decide))⟩

/-- C8: mapper_mmap with a driver-supplied mmap delegates to it for every
region and every requested length; without one, it fails with -EINVAL
(RegionTooSmall) when the requested length exceeds the declared length of
region slot minor, and otherwise dispatches by region type — PHYSICAL to
the IO-memory mapper, LOGICAL to the kernel-logical mapper, VIRTUAL to the
kernel-virtual mapper, and any other type to -EINVAL (InvalidRegion). -/
theorem c8_mapper_mmap_dispatch (env : Env) (udd : UddDevice)
    (minor : Nat) (vlen : Nat) :
    (∀ r, udd.ops_mmap = Option.some r →
      mapper_mmap env udd minor vlen = (r, [Action.driverMmap])) ∧
    (udd.ops_mmap = Option.none →
      ((udd.mem_regions.getD minor emptyRegion).len < vlen →
        mapper_mmap env udd minor vlen = (-invalErr, [])) ∧
      (vlen ≤ (udd.mem_regions.getD minor emptyRegion).len →
        ((udd.mem_regions.getD minor emptyRegion).type = MemType.phys →
          mapper_mmap env udd minor vlen =
            (env.mmap_iomem_ret,
             [Action.mmapIomem (udd.mem_regions.getD minor emptyRegion).addr])) ∧
        ((udd.mem_regions.getD minor emptyRegion).type = MemType.logical →
          mapper_mmap env udd minor vlen =
            (env.mmap_kmem_ret,
             [Action.mmapKmem (udd.mem_regions.getD minor emptyRegion).addr])) ∧
        ((udd.mem_regions.getD minor emptyRegion).type = MemType.virt →
          mapper_mmap env udd minor vlen =
            (env.mmap_vmem_ret,
             [Action.mmapVmem (udd.mem_regions.getD minor emptyRegion).addr])) ∧
        ((udd.mem_regions.getD minor emptyRegion).type = MemType.memNone →
          mapper_mmap env udd minor vlen = (-invalErr, [])))) := by
  constructor
  · intro r hr
    unfold mapper_mmap
    rw [hr]
  · intro hmm
    constructor
    · intro hlen
      unfold mapper_mmap
      rw [hmm]
      simp only []
      rw [if_pos hlen]
    · intro hlen
      refine ⟨?_, ?_, ?_, ?_⟩ <;> intro hty <;>
        · unfold mapper_mmap
          rw [hmm]
          simp only []
          rw [if_neg (by omega), hty]

/-- C8 witness: mapping 16 bytes of the single PHYSICAL region of
devPhysRegion dispatches to the IO-memory mapper at address 4096, and a
32-byte request on the same region is rejected with -EINVAL. -/
theorem c8_mapper_mmap_dispatch_witness :
    mapper_mmap envBase devPhysRegion 0 16 =
      (0, [Action.mmapIomem 4096]) ∧
    mapper_mmap envBase devPhysRegion 0 32 = (-invalErr, []) :=
  ⟨(((c8_mapper_mmap_dispatch envBase devPhysRegion 0 16).2 rfl).2
      (by decide)).1 (by decide),
   ((c8_mapper_mmap_dispatch envBase devPhysRegion 0 32).2 rfl).1
      (by decide)⟩

end Udd
